import Mathlib

/-
  Shallow embedding of src/conf_check.py (mochipon/networkchecker).

  The script performs a DNS check and an HTTP check over a fixed URL list,
  and on failure optionally sends a syslog line and plays an alert over a
  Chromecast speaker, serving the audio file from a local HTTP server.

  Side effects (console prints, syslog sends, server start/stop, the speaker
  play command) are embedded as an explicit event trace.  The network
  environment (the DNS resolver, the HTTP client, the device CLI and the
  Chromecast client) is passed in as oracle functions, since their behaviour
  depends on the outside world.  Python exceptions are embedded as the
  `PyExc` type, split by whether the exception is an instance of
  requests.exceptions.RequestException, the class caught by web_check.
-/

namespace ConfCheck

/-- A Python exception value, as far as conf_check.py can observe it:
its class name, its str() rendering, and whether it is an instance of
requests.exceptions.RequestException (the only class web_check catches;
dns_check catches everything). -/
inductive PyExc where
  | requestException (className : String) (detail : String)
  | otherException (className : String) (detail : String)
deriving DecidableEq

/-- The e.__class__.__name__ of an embedded exception. -/
def PyExc.className : PyExc → String
  | .requestException n _ => n
  | .otherException n _ => n

/-- The str(e) rendering of an embedded exception. -/
def PyExc.detail : PyExc → String
  | .requestException _ d => d
  | .otherException _ d => d

/-- Whether the exception is an instance of requests.exceptions.RequestException. -/
def PyExc.isRequestException : PyExc → Bool
  | .requestException _ _ => true
  | .otherException _ _ => false

/-- One observable side effect of the script. -/
inductive Event where
  | console (line : String)
  | syslog (line : String)
  | serverStart
  | playCommand (url : String)
  | serverStop
deriving DecidableEq

/-- The lines printed to standard output, in order, within an event trace. -/
def consoleLines (evs : List Event) : List String :=
  evs.filterMap fun ev =>
    match ev with
    | Event.console s => some s
    | _ => none

/-- The lines sent to the external log sink (send_syslog), in order. -/
def syslogLines (evs : List Event) : List String :=
  evs.filterMap fun ev =>
    match ev with
    | Event.syslog s => some s
    | _ => none

/-- An HTTP response as observed by web_check: its status code and reason
phrase (the reason only feeds the HTTPError message text). -/
structure HttpResponse where
  status : Nat
  reason : String
deriving DecidableEq

/-- The outcome of requests.get(url, timeout): either a response object or a
raised exception (transport errors and timeouts raise subclasses of
RequestException; the model also allows a non-requests exception). -/
inductive GetResult where
  | resp (r : HttpResponse)
  | exc (e : PyExc)
deriving DecidableEq

/-- Modelled from the requests library: Response.raise_for_status raises
HTTPError exactly for status codes 400-499 (Client Error) and 500-599
(Server Error); every other status, 2xx or not, returns normally. -/
def raise_for_status (r : HttpResponse) (url : String) : Except PyExc Unit :=
  if 400 ≤ r.status ∧ r.status < 500 then
    Except.error (PyExc.requestException "HTTPError"
      (toString r.status ++ " Client Error: " ++ r.reason ++ " for url: " ++ url))
  else if 500 ≤ r.status ∧ r.status < 600 then
    Except.error (PyExc.requestException "HTTPError"
      (toString r.status ++ " Server Error: " ++ r.reason ++ " for url: " ++ url))
  else
    Except.ok ()

/-- The body of the try block of web_check for one URL:
response = requests.get(url, timeout); response.raise_for_status(). -/
def webTry (get : String → GetResult) (url : String) : Except PyExc Unit :=
  match get url with
  | GetResult.exc e => Except.error e
  | GetResult.resp r => raise_for_status r url

/-- Whether one URL passes the web check body without raising: the GET
returned a response and its status is outside 400-599. -/
def urlPasses (get : String → GetResult) (url : String) : Bool :=
  match get url with
  | GetResult.exc _ => false
  | GetResult.resp r => decide (¬ (400 ≤ r.status ∧ r.status < 600))

deriving instance DecidableEq for Except

/-- The result of one check function: its return value (or a propagated
exception), its event trace, and the URLs whose try body was entered, in
order (the call-count observation of the spec). -/
structure CheckRun where
  result : Except PyExc Bool
  events : List Event
  attempted : List String
deriving DecidableEq

/-- Embedding of dns_check. `resolve url` is the outcome of the try body
for that URL (urlparse(url).hostname followed by resolver.query(domain, A)),
which either succeeds or raises some exception. The bare except: clause
catches every exception, so the loop prints the failure line, mirrors it to
syslog when enabled, and returns False; the for-else branch prints the
aggregate success line and returns True. -/
def dns_check (resolve : String → Except PyExc Unit) (syslog : Bool) :
    List String → CheckRun
  | [] =>
    ⟨Except.ok true,
     [Event.console "All dns checks passed successfully!"] ++
       (if syslog then [Event.syslog "All dns checks passed successfully!"] else []),
     []⟩
  | url :: rest =>
    match resolve url with
    | Except.ok _ =>
      let r := dns_check resolve syslog rest
      ⟨r.result,
       Event.console ("DNS check for url " ++ url ++ " ... passed!") :: r.events,
       url :: r.attempted⟩
    | Except.error _ =>
      ⟨Except.ok false,
       [Event.console ("DNS check for url " ++ url ++ " ... failed")] ++
         (if syslog then [Event.syslog ("DNS check for url " ++ url ++ " ... failed")] else []),
       [url]⟩

/-- Embedding of web_check. For each URL the try body is `webTry get url`;
an exception that is a RequestException is caught: the console line carries
the class name and str(e), the syslog line only the class name, and the
function returns False.  Any other exception propagates out of the loop.
The for-else branch prints the aggregate success line and returns True. -/
def web_check (get : String → GetResult) (syslog : Bool) :
    List String → CheckRun
  | [] =>
    ⟨Except.ok true,
     [Event.console "All web checks passed successfully!"] ++
       (if syslog then [Event.syslog "All web checks passed successfully!"] else []),
     []⟩
  | url :: rest =>
    match webTry get url with
    | Except.ok _ =>
      let r := web_check get syslog rest
      ⟨r.result,
       Event.console ("Web check for url " ++ url ++ " ... passed!") :: r.events,
       url :: r.attempted⟩
    | Except.error e =>
      if e.isRequestException then
        ⟨Except.ok false,
         [Event.console ("Web check for url " ++ url ++ " ... failed: " ++
            e.className ++ ": " ++ e.detail)] ++
           (if syslog then
              [Event.syslog ("Web check for url " ++ url ++ " ... failed due to " ++
                 e.className)]
            else []),
         [url]⟩
      else
        ⟨Except.error e, [], [url]⟩

/-- The outcome of checks(): normal return, an AssertionError from a failed
assert, or an uncaught exception propagating out of web_check. -/
inductive BatchResult where
  | passed
  | assertionError
  | uncaught (e : PyExc)
deriving DecidableEq

/-- The result of the check batch together with its event trace and the
URLs each check attempted. -/
structure BatchRun where
  result : BatchResult
  events : List Event
  dnsAttempted : List String
  webAttempted : List String
deriving DecidableEq

/-- Embedding of the body of checks() over an explicit URL list:
assert dns_check(urls, syslog=syslog) then assert web_check(urls, syslog=syslog).
The second assert is evaluated only when the first one holds; a False return
raises AssertionError, and an exception from a check propagates uncaught. -/
def checksWith (resolve : String → Except PyExc Unit) (get : String → GetResult)
    (urls : List String) (syslog : Bool) : BatchRun :=
  match (dns_check resolve syslog urls).result with
  | Except.error e =>
    ⟨BatchResult.uncaught e, (dns_check resolve syslog urls).events,
     (dns_check resolve syslog urls).attempted, []⟩
  | Except.ok db =>
    if db then
      match (web_check get syslog urls).result with
      | Except.error e =>
        ⟨BatchResult.uncaught e,
         (dns_check resolve syslog urls).events ++ (web_check get syslog urls).events,
         (dns_check resolve syslog urls).attempted, (web_check get syslog urls).attempted⟩
      | Except.ok wb =>
        if wb then
          ⟨BatchResult.passed,
           (dns_check resolve syslog urls).events ++ (web_check get syslog urls).events,
           (dns_check resolve syslog urls).attempted, (web_check get syslog urls).attempted⟩
        else
          ⟨BatchResult.assertionError,
           (dns_check resolve syslog urls).events ++ (web_check get syslog urls).events,
           (dns_check resolve syslog urls).attempted, (web_check get syslog urls).attempted⟩
    else
      ⟨BatchResult.assertionError, (dns_check resolve syslog urls).events,
       (dns_check resolve syslog urls).attempted, []⟩

/-- The hardcoded probe URL list WEB_HOSTS. -/
def WEB_HOSTS : List String := ["https://www.cisco.com", "https://www.google.com"]

/-- Embedding of checks(syslog): the batch over the hardcoded WEB_HOSTS. -/
def checks (resolve : String → Except PyExc Unit) (get : String → GetResult)
    (syslog : Bool) : BatchRun :=
  checksWith resolve get WEB_HOSTS syslog

/-- The hardcoded Chromecast device address CASTIPADDR. -/
def CASTIPADDR : String := "192.168.101.103"

/-- The hardcoded audio asset name AUDIOFILE. -/
def AUDIOFILE : String := "Future_Gladiator.mp3"

/-- The longest digit prefix of a character list, with the remainder. -/
def takeDigits : List Char → List Char × List Char
  | [] => ([], [])
  | c :: cs =>
    if c.isDigit then
      let p := takeDigits cs
      (c :: p.1, p.2)
    else
      ([], c :: cs)

/-- Matches one group \.[0-9]+ at the front of the list: a dot followed by
at least one digit, taken greedily. Returns the matched characters and the
remainder. -/
def matchDotDigits : List Char → Option (List Char × List Char)
  | [] => none
  | c :: cs =>
    if c = '.' then
      match takeDigits cs with
      | ([], _) => none
      | (d, r) => some (c :: d, r)
    else none

/-- Matches the pattern [0-9]+(?:\.[0-9]+){3} anchored at the front of the
list: a digit run then exactly three dot-digit-run groups.  The pattern is
backtracking-free (a digit run taken greedily can never hide the dot the
next group needs), so this deterministic scan agrees with Python re. -/
def matchQuadAt (l : List Char) : Option (List Char × List Char) :=
  match takeDigits l with
  | ([], _) => none
  | (d0, r0) =>
    match matchDotDigits r0 with
    | none => none
    | some (m1, r1) =>
      match matchDotDigits r1 with
      | none => none
      | some (m2, r2) =>
        match matchDotDigits r2 with
        | none => none
        | some (m3, r3) => some (d0 ++ m1 ++ m2 ++ m3, r3)

/-- Left-to-right non-overlapping scan for the dotted-quad pattern, with a
fuel argument for structural recursion.  Each step consumes at least one
character, so fuel equal to the list length is always enough. -/
def findallQuadAux : Nat → List Char → List String
  | 0, _ => []
  | _ + 1, [] => []
  | fuel + 1, c :: cs =>
    match matchQuadAt (c :: cs) with
    | some (m, rest) => String.mk m :: findallQuadAux fuel rest
    | none => findallQuadAux fuel cs

/-- Models re.findall of the pattern [0-9]+(?:\.[0-9]+){3} over a string:
all non-overlapping dotted-quad matches, scanned left to right. -/
def findallQuad (s : String) : List String :=
  findallQuadAux s.length s.data

/-- The Chromecast side of the environment: the free-text output of the
device CLI command show ip int bri gi2, the outcome of connecting
pychromecast.Chromecast(CASTIPADDR), and the outcome of
media_controller.play_media(url, audio/mp3) for a given url. -/
structure CastEnv where
  shipOutput : String
  castConnect : Except PyExc Unit
  playMedia : String → Except PyExc Unit

/-- Embedding of audio_play: parse the first dotted-quad of the CLI output
(indexing [0] raises IndexError when there is no match), build the asset
URL from it and port 45114, connect to the Chromecast and issue the play
command.  Returns the emitted events (the play command, when it was issued
successfully) and the normal or exceptional outcome. -/
def audio_play (env : CastEnv) : List Event × Except PyExc Unit :=
  match findallQuad env.shipOutput with
  | [] => ([], Except.error (PyExc.otherException "IndexError" "list index out of range"))
  | host :: _ =>
    let url := "http://" ++ host ++ ":45114/" ++ AUDIOFILE
    match env.castConnect with
    | Except.error e => ([], Except.error e)
    | Except.ok _ =>
      match env.playMedia url with
      | Except.error e => ([], Except.error e)
      | Except.ok _ => ([Event.playCommand url], Except.ok ())

/-- The events of server_up(): start the background accept loop, then print
the start line. -/
def server_up_events : List Event :=
  [Event.serverStart, Event.console "starting server on port 45114"]

/-- The events of server_down(): shut the server down, then print the stop
line. -/
def server_down_events : List Event :=
  [Event.serverStop, Event.console "stopping server on port 45114"]

/-- The whole outside world main interacts with. -/
structure MainEnv where
  resolve : String → Except PyExc Unit
  get : String → GetResult
  cast : CastEnv

/-- The two parsed command line flags. -/
structure Args where
  chromecast : Bool
  syslog : Bool

/-- The events emitted by the except AssertionError branch of main before
any alert dispatch: the check batch output, the generic failure line, and
its syslog mirror when the syslog flag is set. -/
def reportedEvents (env : MainEnv) (args : Args) (urls : List String) : List Event :=
  (checksWith env.resolve env.get urls args.syslog).events ++
    [Event.console "Network Error!"] ++
    (if args.syslog then [Event.syslog "Network Error!"] else [])

/-- Embedding of the body of main over an explicit URL list: run the check
batch; only an AssertionError is caught, in which case the generic failure
line is printed, mirrored to syslog when the syslog flag is set, and when
the chromecast flag is set the alert is dispatched as the plain sequence
server_up(); audio_play(); server_down() with no try/finally, so an
exception from audio_play propagates and server_down never runs. -/
def mainWith (env : MainEnv) (args : Args) (urls : List String) :
    List Event × Except PyExc Unit :=
  match (checksWith env.resolve env.get urls args.syslog).result with
  | BatchResult.uncaught e =>
    ((checksWith env.resolve env.get urls args.syslog).events, Except.error e)
  | BatchResult.passed =>
    ((checksWith env.resolve env.get urls args.syslog).events, Except.ok ())
  | BatchResult.assertionError =>
    if args.chromecast then
      match (audio_play env.cast).2 with
      | Except.error e =>
        (reportedEvents env args urls ++ server_up_events ++ (audio_play env.cast).1,
         Except.error e)
      | Except.ok _ =>
        (reportedEvents env args urls ++ server_up_events ++ (audio_play env.cast).1 ++
           server_down_events,
         Except.ok ())
    else
      (reportedEvents env args urls, Except.ok ())

/-- Embedding of main: the batch runs over the hardcoded WEB_HOSTS. -/
def main (env : MainEnv) (args : Args) : List Event × Except PyExc Unit :=
  mainWith env args WEB_HOSTS

/-- Whether an event is a mere output line (console or syslog), as opposed
to a server lifecycle event or a speaker play command. -/
def Event.isLine : Event → Bool
  | Event.console _ => true
  | Event.syslog _ => true
  | _ => false

/-- The first character of a string, or a blank for the empty string. -/
def headChar (s : String) : Char :=
  s.data.headD ' '

/-- Whether a character is the first character of one of the check
functions output lines: they all start with DNS, Web or All. -/
def checkHead (c : Char) : Bool :=
  c = 'D' || c = 'W' || c = 'A'

/-- Whether an event is an output line that one of the two check functions
can emit: a console or syslog line starting with D, W or A. -/
def isCheckEvent : Event → Bool
  | Event.console s => checkHead (headChar s)
  | Event.syslog s => checkHead (headChar s)
  | _ => false

/-- A resolver for concrete runs: every URL resolves except
https://bad.example, which raises an NXDOMAIN error. -/
def demoResolve (u : String) : Except PyExc Unit :=
  if u = "https://bad.example" then
    Except.error (PyExc.otherException "NXDOMAIN" "The DNS query name does not exist")
  else Except.ok ()

/-- A resolver for concrete runs that always succeeds. -/
def demoResolveOk (_ : String) : Except PyExc Unit :=
  Except.ok ()

/-- A resolver for concrete runs that always raises a timeout. -/
def demoResolveFail (_ : String) : Except PyExc Unit :=
  Except.error (PyExc.otherException "Timeout" "The DNS operation timed out")

/-- An HTTP client for concrete runs that always returns 200 OK. -/
def demoGet200 (_ : String) : GetResult :=
  GetResult.resp ⟨200, "OK"⟩

/-- An HTTP client for concrete runs that always returns 304 Not Modified,
a non-2xx status for which raise_for_status does not raise. -/
def get304 (_ : String) : GetResult :=
  GetResult.resp ⟨304, "Not Modified"⟩

/-- An HTTP client for concrete runs that always raises a ConnectionError,
a RequestException subclass. -/
def getConnErr (_ : String) : GetResult :=
  GetResult.exc (PyExc.requestException "ConnectionError" "connection refused")

/-- An HTTP client for concrete runs: 200 OK everywhere except
https://err.example, which returns 404 Not Found. -/
def demoGet404 (u : String) : GetResult :=
  if u = "https://err.example" then GetResult.resp ⟨404, "Not Found"⟩
  else GetResult.resp ⟨200, "OK"⟩

/-- An HTTP client for concrete runs: 200 OK everywhere except
https://boom.example, where the GET raises an exception that is not a
RequestException. -/
def demoGetBoom (u : String) : GetResult :=
  if u = "https://boom.example" then
    GetResult.exc (PyExc.otherException "ValueError" "boom")
  else GetResult.resp ⟨200, "OK"⟩

/-- A Chromecast environment whose CLI output holds no dotted-quad address. -/
def demoCastNoIp : CastEnv :=
  ⟨"GigabitEthernet2 unassigned YES unset administratively down down",
   Except.ok (), fun _ => Except.ok ()⟩

/-- A Chromecast environment with a valid interface address whose device
connection raises. -/
def demoCastBoom : CastEnv :=
  ⟨"GigabitEthernet2 192.168.1.5 YES NVRAM up up",
   Except.error (PyExc.otherException "ChromecastConnectionError"
     "Could not connect to 192.168.101.103"),
   fun _ => Except.ok ()⟩

/-- A Chromecast environment with a valid interface address where both the
connection and the play command succeed. -/
def demoCastOk : CastEnv :=
  ⟨"GigabitEthernet2 192.168.1.5 YES NVRAM up up",
   Except.ok (), fun _ => Except.ok ()⟩

/-- A world where DNS always fails and the Chromecast connection raises. -/
def demoEnvFail : MainEnv :=
  ⟨demoResolveFail, demoGet200, demoCastBoom⟩

/-- A world where DNS always fails but the whole alert path succeeds. -/
def demoEnvAlertOk : MainEnv :=
  ⟨demoResolveFail, demoGet200, demoCastOk⟩

/-- A world where every check passes. -/
def demoEnvOk : MainEnv :=
  ⟨demoResolveOk, demoGet200, demoCastOk⟩

lemma consoleLines_append (a b : List Event) :
    consoleLines (a ++ b) = consoleLines a ++ consoleLines b :=
  List.filterMap_append a b _

lemma syslogLines_append (a b : List Event) :
    syslogLines (a ++ b) = syslogLines a ++ syslogLines b :=
  List.filterMap_append a b _

lemma consoleLines_nil : consoleLines [] = [] := rfl

lemma syslogLines_nil : syslogLines [] = [] := rfl

lemma consoleLines_cons_console (s : String) (evs : List Event) :
    consoleLines (Event.console s :: evs) = s :: consoleLines evs := rfl

lemma consoleLines_cons_syslog (s : String) (evs : List Event) :
    consoleLines (Event.syslog s :: evs) = consoleLines evs := rfl

lemma syslogLines_cons_console (s : String) (evs : List Event) :
    syslogLines (Event.console s :: evs) = syslogLines evs := rfl

lemma syslogLines_cons_syslog (s : String) (evs : List Event) :
    syslogLines (Event.syslog s :: evs) = s :: syslogLines evs := rfl

lemma consoleLines_map_console (f : String → String) (l : List String) :
    consoleLines (l.map fun v => Event.console (f v)) = l.map f := by
  induction l with
  | nil => rfl
  | cons v vs ih => simpa [consoleLines_cons_console] using ih

lemma syslogLines_map_console (f : String → String) (l : List String) :
    syslogLines (l.map fun v => Event.console (f v)) = [] := by
  induction l with
  | nil => rfl
  | cons v vs ih => simpa [syslogLines_cons_console] using ih

lemma headChar_append (a b : String) (ha : a.data ≠ []) :
    headChar (a ++ b) = headChar a := by
  unfold headChar
  rw [String.data_append]
  cases h : a.data with
  | nil => exact absurd h ha
  | cons c l => simp

lemma checkHead_append (a b : String) (h : checkHead (headChar a) = true) :
    checkHead (headChar (a ++ b)) = true := by
  have ha : a.data ≠ [] := by
    intro hnil
    rw [headChar, hnil] at h
    exact absurd h (by decide)
  rw [headChar_append a b ha]
  exact h

lemma isCheckEvent_console_append (a b : String) (h : checkHead (headChar a) = true) :
    isCheckEvent (Event.console (a ++ b)) = true := by
  simpa [isCheckEvent] using checkHead_append a b h

lemma isCheckEvent_syslog_append (a b : String) (h : checkHead (headChar a) = true) :
    isCheckEvent (Event.syslog (a ++ b)) = true := by
  simpa [isCheckEvent] using checkHead_append a b h

lemma dns_check_events_check (resolve : String → Except PyExc Unit) (syslog : Bool) :
    ∀ urls, ∀ ev ∈ (dns_check resolve syslog urls).events, isCheckEvent ev = true := by
  intro urls
  induction urls with
  | nil =>
    intro ev hev
    cases syslog <;> simp [dns_check] at hev
    · subst hev; decide
    · rcases hev with h | h <;> subst h <;> decide
  | cons u rest ih =>
    intro ev hev
    cases hres : resolve u with
    | ok x =>
      simp [dns_check, hres] at hev
      rcases hev with h | h
      · subst h
        exact isCheckEvent_console_append _ _ (checkHead_append _ _ (by decide))
      · exact ih ev h
    | error e =>
      cases syslog <;> simp [dns_check, hres] at hev
      · subst hev
        exact isCheckEvent_console_append _ _ (checkHead_append _ _ (by decide))
      · rcases hev with h | h <;> subst h
        · exact isCheckEvent_console_append _ _ (checkHead_append _ _ (by decide))
        · exact isCheckEvent_syslog_append _ _ (checkHead_append _ _ (by decide))

lemma web_check_events_check (get : String → GetResult) (syslog : Bool) :
    ∀ urls, ∀ ev ∈ (web_check get syslog urls).events, isCheckEvent ev = true := by
  intro urls
  induction urls with
  | nil =>
    intro ev hev
    cases syslog <;> simp [web_check] at hev
    · subst hev; decide
    · rcases hev with h | h <;> subst h <;> decide
  | cons u rest ih =>
    intro ev hev
    cases hw : webTry get u with
    | ok x =>
      simp [web_check, hw] at hev
      rcases hev with h | h
      · subst h
        exact isCheckEvent_console_append _ _ (checkHead_append _ _ (by decide))
      · exact ih ev h
    | error e =>
      cases hreq : e.isRequestException
      · simp [web_check, hw, hreq] at hev
      · cases syslog <;> simp [web_check, hw, hreq] at hev
        · subst hev
          exact isCheckEvent_console_append _ _ (checkHead_append _ _
            (checkHead_append _ _ (checkHead_append _ _ (checkHead_append _ _ (by decide)))))
        · rcases hev with h | h <;> subst h
          · exact isCheckEvent_console_append _ _ (checkHead_append _ _
              (checkHead_append _ _ (checkHead_append _ _ (checkHead_append _ _ (by decide)))))
          · exact isCheckEvent_syslog_append _ _ (checkHead_append _ _
              (checkHead_append _ _ (by decide)))

lemma checksWith_events_check (resolve : String → Except PyExc Unit)
    (get : String → GetResult) (urls : List String) (syslog : Bool) :
    ∀ ev ∈ (checksWith resolve get urls syslog).events, isCheckEvent ev = true := by
  intro ev hev
  cases hd : (dns_check resolve syslog urls).result with
  | error e =>
    simp [checksWith, hd] at hev
    exact dns_check_events_check resolve syslog urls ev hev
  | ok db =>
    cases db
    · simp [checksWith, hd] at hev
      exact dns_check_events_check resolve syslog urls ev hev
    · cases hw : (web_check get syslog urls).result with
      | error e =>
        simp [checksWith, hd, hw] at hev
        rcases hev with h | h
        · exact dns_check_events_check resolve syslog urls ev h
        · exact web_check_events_check get syslog urls ev h
      | ok wb =>
        cases wb <;> simp [checksWith, hd, hw] at hev <;> rcases hev with h | h
        · exact dns_check_events_check resolve syslog urls ev h
        · exact web_check_events_check get syslog urls ev h
        · exact dns_check_events_check resolve syslog urls ev h
        · exact web_check_events_check get syslog urls ev h

lemma not_mem_of_checkEvents (evs : List Event)
    (hall : ∀ ev ∈ evs, isCheckEvent ev = true)
    (ev : Event) (hne : isCheckEvent ev = false) : ev ∉ evs := by
  intro h
  rw [hall ev h] at hne
  exact Bool.noConfusion hne

lemma audio_play_events_play (env : CastEnv) :
    ∀ ev ∈ (audio_play env).1, ∃ u, ev = Event.playCommand u := by
  intro ev hev
  unfold audio_play at hev
  cases hq : findallQuad env.shipOutput with
  | nil => simp [hq] at hev
  | cons host hosts =>
    cases hc : env.castConnect with
    | error e => simp [hq, hc] at hev
    | ok x =>
      cases hp : env.playMedia ("http://" ++ host ++ ":45114/" ++ AUDIOFILE) with
      | error e => simp [hq, hc, hp] at hev
      | ok y =>
        simp [hq, hc, hp] at hev
        exact ⟨_, hev⟩

lemma dns_check_append (resolve : String → Except PyExc Unit) (syslog : Bool)
    (pre l : List String) (hpre : ∀ v ∈ pre, resolve v = Except.ok ()) :
    dns_check resolve syslog (pre ++ l) =
      ⟨(dns_check resolve syslog l).result,
       (pre.map fun v => Event.console ("DNS check for url " ++ v ++ " ... passed!")) ++
         (dns_check resolve syslog l).events,
       pre ++ (dns_check resolve syslog l).attempted⟩ := by
  induction pre with
  | nil => rfl
  | cons v vs ih =>
    have hv : resolve v = Except.ok () := hpre v (List.mem_cons_self v vs)
    have ih2 := ih fun w hw => hpre w (List.mem_cons_of_mem v hw)
    simp [dns_check, hv, ih2]

lemma web_check_append (get : String → GetResult) (syslog : Bool)
    (pre l : List String) (hpre : ∀ v ∈ pre, webTry get v = Except.ok ()) :
    web_check get syslog (pre ++ l) =
      ⟨(web_check get syslog l).result,
       (pre.map fun v => Event.console ("Web check for url " ++ v ++ " ... passed!")) ++
         (web_check get syslog l).events,
       pre ++ (web_check get syslog l).attempted⟩ := by
  induction pre with
  | nil => rfl
  | cons v vs ih =>
    have hv : webTry get v = Except.ok () := hpre v (List.mem_cons_self v vs)
    have ih2 := ih fun w hw => hpre w (List.mem_cons_of_mem v hw)
    simp [web_check, hv, ih2]

lemma urlPasses_iff (get : String → GetResult) (u : String) :
    urlPasses get u = true ↔ webTry get u = Except.ok () := by
  unfold urlPasses webTry
  cases get u with
  | exc e => simp
  | resp r =>
    unfold raise_for_status
    by_cases h1 : 400 ≤ r.status ∧ r.status < 500
    · simp [h1]
      omega
    · by_cases h2 : 500 ≤ r.status ∧ r.status < 600
      · simp [h1, h2]
        omega
      · simp [h1, h2]
        omega

lemma webTry_error_isReq (get : String → GetResult)
    (hreq : ∀ u e, get u = GetResult.exc e → e.isRequestException = true)
    (u : String) (e : PyExc) (h : webTry get u = Except.error e) :
    e.isRequestException = true := by
  unfold webTry at h
  cases hg : get u with
  | exc e2 =>
    rw [hg] at h
    injection h with he
    subst he
    exact hreq u e2 hg
  | resp r =>
    rw [hg] at h
    have hs : raise_for_status r u = Except.error e := h
    unfold raise_for_status at hs
    by_cases h1 : 400 ≤ r.status ∧ r.status < 500
    · rw [if_pos h1] at hs
      injection hs with he
      subst he
      rfl
    · rw [if_neg h1] at hs
      by_cases h2 : 500 ≤ r.status ∧ r.status < 600
      · rw [if_pos h2] at hs
        injection hs with he
        subst he
        rfl
      · rw [if_neg h2] at hs
        exact Except.noConfusion hs

lemma webTry_error_of_not_passes (get : String → GetResult) (u : String)
    (h : urlPasses get u = false) : ∃ e, webTry get u = Except.error e := by
  cases hw : webTry get u with
  | error e => exact ⟨e, rfl⟩
  | ok x =>
    cases x
    rw [(urlPasses_iff get u).2 hw] at h
    exact Bool.noConfusion h

lemma dns_check_syslog_off (resolve : String → Except PyExc Unit) :
    ∀ urls, syslogLines (dns_check resolve false urls).events = [] := by
  intro urls
  induction urls with
  | nil => rfl
  | cons u rest ih =>
    cases hres : resolve u with
    | ok x => simp [dns_check, hres, syslogLines_cons_console, ih]
    | error e => simp [dns_check, hres, syslogLines]

lemma web_check_syslog_off (get : String → GetResult) :
    ∀ urls, syslogLines (web_check get false urls).events = [] := by
  intro urls
  induction urls with
  | nil => rfl
  | cons u rest ih =>
    cases hw : webTry get u with
    | ok x => simp [web_check, hw, syslogLines_cons_console, ih]
    | error e =>
      cases hreq : e.isRequestException <;> simp [web_check, hw, hreq, syslogLines]

lemma checksWith_syslog_off (resolve : String → Except PyExc Unit)
    (get : String → GetResult) (urls : List String) :
    syslogLines (checksWith resolve get urls false).events = [] := by
  cases hd : (dns_check resolve false urls).result with
  | error e => simp [checksWith, hd, dns_check_syslog_off]
  | ok db =>
    cases db
    · simp [checksWith, hd, dns_check_syslog_off]
    · cases hw : (web_check get false urls).result with
      | error e =>
        simp [checksWith, hd, hw, syslogLines_append, dns_check_syslog_off,
          web_check_syslog_off]
      | ok wb =>
        cases wb <;>
          simp [checksWith, hd, hw, syslogLines_append, dns_check_syslog_off,
            web_check_syslog_off]

lemma dns_check_all_pass (resolve : String → Except PyExc Unit) (syslog : Bool)
    (urls : List String) (hall : ∀ v ∈ urls, resolve v = Except.ok ()) :
    dns_check resolve syslog urls =
      ⟨Except.ok true,
       (urls.map fun v => Event.console ("DNS check for url " ++ v ++ " ... passed!")) ++
         ([Event.console "All dns checks passed successfully!"] ++
           (if syslog then [Event.syslog "All dns checks passed successfully!"] else [])),
       urls⟩ := by
  have h := dns_check_append resolve syslog urls [] hall
  rw [List.append_nil] at h
  simpa [dns_check] using h

lemma web_check_all_pass (get : String → GetResult) (syslog : Bool)
    (urls : List String) (hall : ∀ v ∈ urls, webTry get v = Except.ok ()) :
    web_check get syslog urls =
      ⟨Except.ok true,
       (urls.map fun v => Event.console ("Web check for url " ++ v ++ " ... passed!")) ++
         ([Event.console "All web checks passed successfully!"] ++
           (if syslog then [Event.syslog "All web checks passed successfully!"] else [])),
       urls⟩ := by
  have h := web_check_append get syslog urls [] hall
  rw [List.append_nil] at h
  simpa [web_check] using h

lemma checks_not_mem (resolve : String → Except PyExc Unit) (get : String → GetResult)
    (urls : List String) (syslog : Bool) (ev : Event) (hne : isCheckEvent ev = false) :
    ev ∉ (checksWith resolve get urls syslog).events :=
  not_mem_of_checkEvents _ (checksWith_events_check resolve get urls syslog) ev hne

lemma play_not_mem (c : CastEnv) (ev : Event)
    (hne : ∀ u, ev ≠ Event.playCommand u) : ev ∉ (audio_play c).1 := by
  intro h
  obtain ⟨u, hu⟩ := audio_play_events_play c ev h
  exact hne u hu

lemma reported_not_mem (env : MainEnv) (args : Args) (urls : List String) (ev : Event)
    (hne : isCheckEvent ev = false) (h1 : ev ≠ Event.console "Network Error!")
    (h2 : ev ≠ Event.syslog "Network Error!") :
    ev ∉ reportedEvents env args urls := by
  unfold reportedEvents
  intro h
  rcases List.mem_append.1 h with h | h
  · rcases List.mem_append.1 h with h | h
    · exact absurd ((checksWith_events_check env.resolve env.get urls args.syslog) ev h)
        (by simp [hne])
    · exact h1 (List.mem_singleton.1 h)
  · cases hs : args.syslog <;> rw [hs] at h
    · exact absurd h (List.not_mem_nil ev)
    · exact h2 (List.mem_singleton.1 h)

lemma mainWith_trace_assertion (env : MainEnv) (args : Args) (urls : List String)
    (h : (checksWith env.resolve env.get urls args.syslog).result =
      BatchResult.assertionError)
    (hc : args.chromecast = true) :
    (mainWith env args urls).1 =
      reportedEvents env args urls ++ server_up_events ++ (audio_play env.cast).1 ++
        (match (audio_play env.cast).2 with
         | Except.ok _ => server_down_events
         | Except.error _ => []) := by
  unfold mainWith
  cases hp : (audio_play env.cast).2 with
  | error e => simp [h, hc, hp]
  | ok x => simp [h, hc, hp]

lemma mainWith_trace_assertion_nocast (env : MainEnv) (args : Args) (urls : List String)
    (h : (checksWith env.resolve env.get urls args.syslog).result =
      BatchResult.assertionError)
    (hc : args.chromecast = false) :
    (mainWith env args urls).1 = reportedEvents env args urls := by
  unfold mainWith
  simp [h, hc]

/-- C1: dns_check returns fail at the first URL whose hostname fails to
resolve, entering the try body only for the URLs up to and including that
one (no later URL is evaluated), and returns pass exactly when every URL in
the list resolves successfully. -/
theorem dns_check_first_failure (resolve : String → Except PyExc Unit) (syslog : Bool) :
    (∀ pre u post, (∀ v ∈ pre, resolve v = Except.ok ()) →
      resolve u ≠ Except.ok () →
      (dns_check resolve syslog (pre ++ u :: post)).result = Except.ok false ∧
      (dns_check resolve syslog (pre ++ u :: post)).attempted = pre ++ [u]) ∧
    (∀ urls, (dns_check resolve syslog urls).result = Except.ok true ↔
      ∀ u ∈ urls, resolve u = Except.ok ()) := by
  constructor
  · intro pre u post hpre hu
    have hA := dns_check_append resolve syslog pre (u :: post) hpre
    cases hres : resolve u with
    | ok x => cases x; exact absurd hres hu
    | error e =>
      rw [hA]
      constructor
      · simp [dns_check, hres]
      · simp [dns_check, hres]
  · intro urls
    induction urls with
    | nil => simp [dns_check]
    | cons u rest ih =>
      cases hres : resolve u with
      | error e =>
        have hres2 : (dns_check resolve syslog (u :: rest)).result = Except.ok false := by
          simp [dns_check, hres]
        rw [hres2]
        constructor
        · intro hfalse
          exact absurd hfalse (by simp)
        · intro hall
          exact absurd (hall u (List.mem_cons_self u rest)) (by simp [hres])
      | ok x =>
        cases x
        simp [dns_check, hres, ih]

/-- Witness for dns_check_first_failure: with a resolver failing exactly at
https://bad.example, the check over three URLs fails and evaluates only the
first two. -/
theorem dns_check_first_failure_witness :
    (dns_check demoResolve true
        ["https://ok.example", "https://bad.example", "https://late.example"]).result =
      Except.ok false ∧
    (dns_check demoResolve true
        ["https://ok.example", "https://bad.example", "https://late.example"]).attempted =
      ["https://ok.example", "https://bad.example"] :=
  (dns_check_first_failure demoResolve true).1 ["https://ok.example"] "https://bad.example"
    ["https://late.example"] (by decide) (by decide)

/-- C10: when the device CLI output holds no dotted-quad address, the
indexing [0] of the empty findall result makes audio_play raise IndexError,
with no speaker play command issued. -/
theorem audio_play_index_error (env : CastEnv)
    (h : findallQuad env.shipOutput = []) :
    audio_play env =
      ([], Except.error (PyExc.otherException "IndexError" "list index out of range")) := by
  unfold audio_play
  rw [h]

/-- Witness for audio_play_index_error: a concrete interface listing with no
address crashes audio_play. -/
theorem audio_play_index_error_witness :
    audio_play demoCastNoIp =
      ([], Except.error (PyExc.otherException "IndexError" "list index out of range")) :=
  audio_play_index_error demoCastNoIp (by decide)

/-- C2 counterexample: a GET response with the non-2xx status 304 is not an
error for raise_for_status, so web_check treats the URL as passing even
though its status is not 2xx, refuting that passing requires a 2xx status. -/
theorem web_check_non_2xx_passes :
    get304 "https://u.example" = GetResult.resp ⟨304, "Not Modified"⟩ ∧
    ¬ (200 ≤ (304 : Nat) ∧ (304 : Nat) < 300) ∧
    (web_check get304 false ["https://u.example"]).result = Except.ok true ∧
    consoleLines (web_check get304 false ["https://u.example"]).events =
      ["Web check for url https://u.example ... passed!",
       "All web checks passed successfully!"] := by
  refine ⟨rfl, by decide, ?_, ?_⟩ <;> decide

/-- C2 amended: a URL passes the web check exactly when its GET raises no
exception and returns a status outside 400-599 (raise_for_status raises
only for 4xx and 5xx, so a non-2xx status such as 304 passes); assuming the
HTTP client raises only RequestException instances, web_check fails at the
first non-passing URL without evaluating the rest, and passes exactly when
every URL passes. -/
theorem web_check_first_failure (get : String → GetResult) (syslog : Bool)
    (hreq : ∀ u e, get u = GetResult.exc e → e.isRequestException = true) :
    (∀ pre u post, (∀ v ∈ pre, urlPasses get v = true) → urlPasses get u = false →
      (web_check get syslog (pre ++ u :: post)).result = Except.ok false ∧
      (web_check get syslog (pre ++ u :: post)).attempted = pre ++ [u]) ∧
    (∀ urls, (web_check get syslog urls).result = Except.ok true ↔
      ∀ u ∈ urls, urlPasses get u = true) := by
  constructor
  · intro pre u post hpre hu
    have hpre2 : ∀ v ∈ pre, webTry get v = Except.ok () :=
      fun v hv => (urlPasses_iff get v).1 (hpre v hv)
    have hA := web_check_append get syslog pre (u :: post) hpre2
    obtain ⟨e, he⟩ := webTry_error_of_not_passes get u hu
    have hr : e.isRequestException = true := webTry_error_isReq get hreq u e he
    rw [hA]
    constructor
    · simp [web_check, he, hr]
    · simp [web_check, he, hr]
  · intro urls
    induction urls with
    | nil => simp [web_check]
    | cons u rest ih =>
      cases hu : urlPasses get u with
      | false =>
        obtain ⟨e, he⟩ := webTry_error_of_not_passes get u hu
        have hr : e.isRequestException = true := webTry_error_isReq get hreq u e he
        have hres2 : (web_check get syslog (u :: rest)).result = Except.ok false := by
          simp [web_check, he, hr]
        rw [hres2]
        constructor
        · intro hfalse
          exact absurd hfalse (by simp)
        · intro hall
          rw [hall u (List.mem_cons_self u rest)] at hu
          exact Bool.noConfusion hu
      | true =>
        have hw : webTry get u = Except.ok () := (urlPasses_iff get u).1 hu
        simp [web_check, hw, ih, hu]

/-- Witness for web_check_first_failure: with a client returning 404 exactly
at https://err.example, the check over three URLs fails and evaluates only
the first two. -/
theorem web_check_first_failure_witness :
    (web_check demoGet404 true
        ["https://ok.example", "https://err.example", "https://late.example"]).result =
      Except.ok false ∧
    (web_check demoGet404 true
        ["https://ok.example", "https://err.example", "https://late.example"]).attempted =
      ["https://ok.example", "https://err.example"] :=
  (web_check_first_failure demoGet404 true
      (by intro u e h; unfold demoGet404 at h; split at h <;> exact GetResult.noConfusion h)).1
    ["https://ok.example"] "https://err.example" ["https://late.example"]
    (by decide) (by decide)

/-- C8: dns_check catches every exception, so its result is always a normal
boolean, while web_check catches only RequestException instances: at the
first failing URL a RequestException yields the return value False, and any
other exception propagates out of web_check as a raised exception. -/
theorem exception_propagation (resolve : String → Except PyExc Unit)
    (get : String → GetResult) (syslog : Bool) :
    (∀ urls, ∃ b, (dns_check resolve syslog urls).result = Except.ok b) ∧
    (∀ pre u post e, (∀ v ∈ pre, webTry get v = Except.ok ()) →
      webTry get u = Except.error e →
      (e.isRequestException = true →
        (web_check get syslog (pre ++ u :: post)).result = Except.ok false) ∧
      (e.isRequestException = false →
        (web_check get syslog (pre ++ u :: post)).result = Except.error e)) := by
  constructor
  · intro urls
    induction urls with
    | nil => exact ⟨true, rfl⟩
    | cons u rest ih =>
      cases hres : resolve u with
      | ok x =>
        obtain ⟨b, hb⟩ := ih
        exact ⟨b, by simp [dns_check, hres, hb]⟩
      | error e => exact ⟨false, by simp [dns_check, hres]⟩
  · intro pre u post e hpre he
    have hA := web_check_append get syslog pre (u :: post) hpre
    constructor
    · intro hr
      rw [hA]
      simp [web_check, he, hr]
    · intro hr
      rw [hA]
      simp [web_check, he, hr]

/-- Witness for exception_propagation: dns_check returns a boolean on a run
with a failing resolution, and web_check propagates a ValueError raised at
the second URL. -/
theorem exception_propagation_witness :
    (∃ b, (dns_check demoResolve false
        ["https://ok.example", "https://bad.example"]).result = Except.ok b) ∧
    (web_check demoGetBoom false
        ["https://ok.example", "https://boom.example", "https://late.example"]).result =
      Except.error (PyExc.otherException "ValueError" "boom") :=
  ⟨(exception_propagation demoResolve demoGetBoom false).1
      ["https://ok.example", "https://bad.example"],
   ((exception_propagation demoResolve demoGetBoom false).2
      ["https://ok.example"] "https://boom.example" ["https://late.example"]
      (PyExc.otherException "ValueError" "boom") (by decide) (by decide)).2 rfl⟩

/-- C3: the batch passes exactly when both checks return True; when the DNS
check returns False the batch raises AssertionError with the web check not
evaluated at all, and when the DNS check passes but the web check returns
False the batch raises AssertionError as well. -/
theorem checks_batch_and (resolve : String → Except PyExc Unit)
    (get : String → GetResult) (urls : List String) (syslog : Bool) :
    ((checksWith resolve get urls syslog).result = BatchResult.passed ↔
      (dns_check resolve syslog urls).result = Except.ok true ∧
      (web_check get syslog urls).result = Except.ok true) ∧
    ((dns_check resolve syslog urls).result = Except.ok false →
      (checksWith resolve get urls syslog).result = BatchResult.assertionError ∧
      (checksWith resolve get urls syslog).webAttempted = []) ∧
    ((dns_check resolve syslog urls).result = Except.ok true →
      (web_check get syslog urls).result = Except.ok false →
      (checksWith resolve get urls syslog).result = BatchResult.assertionError) := by
  refine ⟨?_, ?_, ?_⟩
  · cases hd : (dns_check resolve syslog urls).result with
    | error e => simp [checksWith, hd]
    | ok db =>
      cases db
      · simp [checksWith, hd]
      · cases hw : (web_check get syslog urls).result with
        | error e => simp [checksWith, hd, hw]
        | ok wb => cases wb <;> simp [checksWith, hd, hw]
  · intro hd
    constructor <;> simp [checksWith, hd]
  · intro hd hw
    simp [checksWith, hd, hw]

/-- Witness for checks_batch_and: a failing DNS resolution makes the batch
raise AssertionError with the web check never evaluated. -/
theorem checks_batch_and_witness :
    (checksWith demoResolve demoGet200
        ["https://ok.example", "https://bad.example"] true).result =
      BatchResult.assertionError ∧
    (checksWith demoResolve demoGet200
        ["https://ok.example", "https://bad.example"] true).webAttempted = [] :=
  (checks_batch_and demoResolve demoGet200
      ["https://ok.example", "https://bad.example"] true).2.1 (by decide)

/-- C5 counterexample: for an HTTP failure the line sent to the external
sink still contains the exception class name ConnectionError, so the
sanitized message does not omit the exception class; only str(e) is
omitted, while the console line carries both. -/
theorem web_syslog_contains_class :
    syslogLines (web_check getConnErr true ["https://u.example"]).events =
      ["Web check for url https://u.example ... failed due to ConnectionError"] ∧
    (∃ s t : String,
      "Web check for url https://u.example ... failed due to ConnectionError" =
        s ++ "ConnectionError" ++ t) ∧
    consoleLines (web_check getConnErr true ["https://u.example"]).events =
      ["Web check for url https://u.example ... failed: ConnectionError: connection refused"] :=
  ⟨by decide,
   ⟨"Web check for url https://u.example ... failed due to ", "", by decide⟩,
   by decide⟩

/-- C5 amended: when logging is enabled and the web check fails at its first
failing URL with a caught RequestException, the one line sent to the
external sink carries the exception class name but omits str(e), while the
console line for the same failure carries both the class name and str(e). -/
theorem web_syslog_sanitized (get : String → GetResult) (pre post : List String)
    (u : String) (e : PyExc)
    (hpre : ∀ v ∈ pre, webTry get v = Except.ok ())
    (hu : webTry get u = Except.error e)
    (hreq : e.isRequestException = true) :
    syslogLines (web_check get true (pre ++ u :: post)).events =
      ["Web check for url " ++ u ++ " ... failed due to " ++ e.className] ∧
    consoleLines (web_check get true (pre ++ u :: post)).events =
      (pre.map fun v => "Web check for url " ++ v ++ " ... passed!") ++
        ["Web check for url " ++ u ++ " ... failed: " ++ e.className ++ ": " ++ e.detail] := by
  have hA := web_check_append get true pre (u :: post) hpre
  rw [hA]
  have hcons : web_check get true (u :: post) =
      ⟨Except.ok false,
       [Event.console ("Web check for url " ++ u ++ " ... failed: " ++
          e.className ++ ": " ++ e.detail),
        Event.syslog ("Web check for url " ++ u ++ " ... failed due to " ++ e.className)],
       [u]⟩ := by
    simp [web_check, hu, hreq]
  constructor
  · simp [hcons, syslogLines_append, syslogLines_map_console,
      syslogLines_cons_console, syslogLines_cons_syslog, syslogLines_nil]
  · simp [hcons, consoleLines_append, consoleLines_map_console,
      consoleLines_cons_console, consoleLines_cons_syslog, consoleLines_nil]

/-- Witness for web_syslog_sanitized at a concrete failing run. -/
theorem web_syslog_sanitized_witness :
    syslogLines (web_check getConnErr true ["https://u.example"]).events =
      ["Web check for url https://u.example ... failed due to ConnectionError"] ∧
    consoleLines (web_check getConnErr true ["https://u.example"]).events =
      ["Web check for url https://u.example ... failed: ConnectionError: connection refused"] :=
  web_syslog_sanitized getConnErr [] [] "https://u.example"
    (PyExc.requestException "ConnectionError" "connection refused")
    (by simp) (by decide) rfl

/-- C6 counterexample: with logging enabled and one resolving URL, the
per-host pass line is printed to the console but never sent to the external
sink, which receives only the aggregate line; so not every console outcome
line is mirrored. -/
theorem dns_pass_line_not_mirrored :
    consoleLines (dns_check demoResolve true ["https://ok.example"]).events =
      ["DNS check for url https://ok.example ... passed!",
       "All dns checks passed successfully!"] ∧
    syslogLines (dns_check demoResolve true ["https://ok.example"]).events =
      ["All dns checks passed successfully!"] ∧
    "DNS check for url https://ok.example ... passed!" ∉
      syslogLines (dns_check demoResolve true ["https://ok.example"]).events := by
  refine ⟨?_, ?_, ?_⟩ <;> decide

/-- C6 amended: the external sink mirrors only the failure lines and the
aggregate all-passed line, never the per-host pass lines: with logging
disabled no line is sent regardless of outcome; with logging enabled a
failing check sends exactly its one failure line per check kind, and a
fully passing check sends exactly its aggregate line. -/
theorem syslog_mirroring (resolve : String → Except PyExc Unit)
    (get : String → GetResult) :
    (∀ urls, syslogLines (dns_check resolve false urls).events = [] ∧
      syslogLines (web_check get false urls).events = [] ∧
      syslogLines (checksWith resolve get urls false).events = []) ∧
    (∀ pre u post, (∀ v ∈ pre, resolve v = Except.ok ()) →
      resolve u ≠ Except.ok () →
      syslogLines (dns_check resolve true (pre ++ u :: post)).events =
        ["DNS check for url " ++ u ++ " ... failed"]) ∧
    (∀ pre u post e, (∀ v ∈ pre, webTry get v = Except.ok ()) →
      webTry get u = Except.error e → e.isRequestException = true →
      syslogLines (web_check get true (pre ++ u :: post)).events =
        ["Web check for url " ++ u ++ " ... failed due to " ++ e.className]) ∧
    (∀ urls, (∀ v ∈ urls, resolve v = Except.ok ()) →
      syslogLines (dns_check resolve true urls).events =
        ["All dns checks passed successfully!"]) ∧
    (∀ urls, (∀ v ∈ urls, webTry get v = Except.ok ()) →
      syslogLines (web_check get true urls).events =
        ["All web checks passed successfully!"]) := by
  refine ⟨?_, ?_, ?_, ?_, ?_⟩
  · intro urls
    exact ⟨dns_check_syslog_off resolve urls, web_check_syslog_off get urls,
      checksWith_syslog_off resolve get urls⟩
  · intro pre u post hpre hu
    have hA := dns_check_append resolve true pre (u :: post) hpre
    cases hres : resolve u with
    | ok x => cases x; exact absurd hres hu
    | error e =>
      rw [hA]
      have hcons : dns_check resolve true (u :: post) =
          ⟨Except.ok false,
           [Event.console ("DNS check for url " ++ u ++ " ... failed"),
            Event.syslog ("DNS check for url " ++ u ++ " ... failed")],
           [u]⟩ := by
        simp [dns_check, hres]
      simp [hcons, syslogLines_append, syslogLines_map_console,
        syslogLines_cons_console, syslogLines_cons_syslog, syslogLines_nil]
  · intro pre u post e hpre hu hreq
    have hA := web_check_append get true pre (u :: post) hpre
    rw [hA]
    have hcons : web_check get true (u :: post) =
        ⟨Except.ok false,
         [Event.console ("Web check for url " ++ u ++ " ... failed: " ++
            e.className ++ ": " ++ e.detail),
          Event.syslog ("Web check for url " ++ u ++ " ... failed due to " ++ e.className)],
         [u]⟩ := by
      simp [web_check, hu, hreq]
    simp [hcons, syslogLines_append, syslogLines_map_console,
      syslogLines_cons_console, syslogLines_cons_syslog, syslogLines_nil]
  · intro urls hall
    rw [dns_check_all_pass resolve true urls hall]
    simp [syslogLines_append, syslogLines_map_console,
      syslogLines_cons_console, syslogLines_cons_syslog, syslogLines_nil]
  · intro urls hall
    rw [web_check_all_pass get true urls hall]
    simp [syslogLines_append, syslogLines_map_console,
      syslogLines_cons_console, syslogLines_cons_syslog, syslogLines_nil]

/-- Witness for syslog_mirroring: with logging enabled, a DNS failure at the
second of two URLs sends exactly one failure line to the sink. -/
theorem syslog_mirroring_witness :
    syslogLines (dns_check demoResolve true
        ["https://ok.example", "https://bad.example"]).events =
      ["DNS check for url https://bad.example ... failed"] :=
  (syslog_mirroring demoResolve demoGet200).2.1
    ["https://ok.example"] "https://bad.example" [] (by decide) (by decide)

/-- C4 counterexample: a dispatch whose speaker connection raises starts
the server but never stops it — the trace holds a serverStart and no
serverStop, and the exception propagates out of main — refuting that the
server is stopped unconditionally for failed speaker commands. -/
theorem main_alert_no_stop_on_raise :
    (audio_play demoCastBoom).2 =
      Except.error (PyExc.otherException "ChromecastConnectionError"
        "Could not connect to 192.168.101.103") ∧
    Event.serverStart ∈ (main demoEnvFail ⟨true, false⟩).1 ∧
    Event.serverStop ∉ (main demoEnvFail ⟨true, false⟩).1 ∧
    (main demoEnvFail ⟨true, false⟩).2 =
      Except.error (PyExc.otherException "ChromecastConnectionError"
        "Could not connect to 192.168.101.103") := by
  refine ⟨?_, ?_, ?_, ?_⟩ <;> decide

/-- C4 amended: when the check batch fails and the chromecast flag is set,
the dispatch trace is the failure report, then the server start, then the
audio_play events (only play commands, so every play command comes after
the server start), then the server stop exactly when audio_play returned
normally; when audio_play raises, the exception propagates out of main and
no server stop occurs at all. -/
theorem main_alert_ordering (env : MainEnv) (args : Args) (urls : List String)
    (hfail : (checksWith env.resolve env.get urls args.syslog).result =
      BatchResult.assertionError)
    (hcc : args.chromecast = true) :
    (mainWith env args urls).1 =
      reportedEvents env args urls ++ server_up_events ++ (audio_play env.cast).1 ++
        (match (audio_play env.cast).2 with
         | Except.ok _ => server_down_events
         | Except.error _ => []) ∧
    Event.serverStart ∉ reportedEvents env args urls ∧
    Event.serverStop ∉ reportedEvents env args urls ∧
    (∀ u, Event.playCommand u ∉ reportedEvents env args urls ∧
      Event.playCommand u ∉ server_up_events) ∧
    (∀ ev ∈ (audio_play env.cast).1, ∃ u, ev = Event.playCommand u) ∧
    ((audio_play env.cast).2 = Except.ok () →
      (mainWith env args urls).2 = Except.ok ()) ∧
    (∀ e, (audio_play env.cast).2 = Except.error e →
      (mainWith env args urls).2 = Except.error e ∧
      Event.serverStop ∉ (mainWith env args urls).1) := by
  refine ⟨mainWith_trace_assertion env args urls hfail hcc, ?_, ?_, ?_, ?_, ?_, ?_⟩
  · exact reported_not_mem env args urls Event.serverStart rfl (by simp) (by simp)
  · exact reported_not_mem env args urls Event.serverStop rfl (by simp) (by simp)
  · intro u
    constructor
    · exact reported_not_mem env args urls (Event.playCommand u) rfl (by simp) (by simp)
    · simp [server_up_events]
  · exact audio_play_events_play env.cast
  · intro hp
    unfold mainWith
    simp [hfail, hcc, hp]
  · intro e hp
    constructor
    · unfold mainWith
      simp [hfail, hcc, hp]
    · rw [mainWith_trace_assertion env args urls hfail hcc, hp]
      intro h
      rcases List.mem_append.1 h with h | h
      · rcases List.mem_append.1 h with h | h
        · rcases List.mem_append.1 h with h | h
          · exact reported_not_mem env args urls Event.serverStop rfl (by simp) (by simp) h
          · simp [server_up_events] at h
        · exact play_not_mem env.cast _ (fun u => by simp) h
      · simp at h

/-- Witness for main_alert_ordering: a failing batch with a fully working
alert path ends main normally (the serverStop having followed the play). -/
theorem main_alert_ordering_witness :
    (mainWith demoEnvAlertOk ⟨true, false⟩ WEB_HOSTS).2 = Except.ok () :=
  ((main_alert_ordering demoEnvAlertOk ⟨true, false⟩ WEB_HOSTS
      (by decide) rfl).2.2.2.2.2.1) (by decide)

/-- C7: main prints the generic failure line exactly when the batch raises
AssertionError, mirrors it to the external sink exactly when the syslog
flag is set, and dispatches the alert (starting the server) exactly when
the chromecast flag is set; on batch success the trace is just the check
output, with no failure message and no alert action, and an uncaught
exception propagates with no failure message and no alert either. -/
theorem main_failure_reporting (env : MainEnv) (args : Args) :
    ((checks env.resolve env.get args.syslog).result = BatchResult.passed →
      main env args = ((checks env.resolve env.get args.syslog).events, Except.ok ()) ∧
      Event.console "Network Error!" ∉ (main env args).1 ∧
      Event.syslog "Network Error!" ∉ (main env args).1 ∧
      Event.serverStart ∉ (main env args).1 ∧
      (∀ u, Event.playCommand u ∉ (main env args).1)) ∧
    ((checks env.resolve env.get args.syslog).result = BatchResult.assertionError →
      Event.console "Network Error!" ∈ (main env args).1 ∧
      (Event.syslog "Network Error!" ∈ (main env args).1 ↔ args.syslog = true) ∧
      (Event.serverStart ∈ (main env args).1 ↔ args.chromecast = true)) ∧
    (∀ e, (checks env.resolve env.get args.syslog).result = BatchResult.uncaught e →
      main env args = ((checks env.resolve env.get args.syslog).events, Except.error e) ∧
      Event.console "Network Error!" ∉ (main env args).1 ∧
      Event.serverStart ∉ (main env args).1) := by
  unfold main checks
  refine ⟨?_, ?_, ?_⟩
  · intro h
    have hmain : mainWith env args WEB_HOSTS =
        ((checksWith env.resolve env.get WEB_HOSTS args.syslog).events, Except.ok ()) := by
      unfold mainWith
      simp [h]
    refine ⟨hmain, ?_, ?_, ?_, ?_⟩
    · rw [hmain]
      exact checks_not_mem _ _ _ _ _ (by decide)
    · rw [hmain]
      exact checks_not_mem _ _ _ _ _ (by decide)
    · rw [hmain]
      exact checks_not_mem _ _ _ _ _ (by decide)
    · intro u
      rw [hmain]
      exact checks_not_mem _ _ _ _ (Event.playCommand u) rfl
  · intro h
    have hb2 : Event.syslog "Network Error!" ∉
        (checksWith env.resolve env.get WEB_HOSTS args.syslog).events :=
      checks_not_mem _ _ _ _ _ (by decide)
    have hb3 : Event.serverStart ∉
        (checksWith env.resolve env.get WEB_HOSTS args.syslog).events :=
      checks_not_mem _ _ _ _ _ (by decide)
    have hp1 : Event.syslog "Network Error!" ∉ (audio_play env.cast).1 :=
      play_not_mem env.cast _ (fun u => by simp)
    have hp2 : Event.serverStart ∉ (audio_play env.cast).1 :=
      play_not_mem env.cast _ (fun u => by simp)
    cases hc : args.chromecast with
    | false =>
      rw [mainWith_trace_assertion_nocast env args WEB_HOSTS h hc]
      unfold reportedEvents
      refine ⟨by simp, ?_, ?_⟩
      · cases hs : args.syslog
        · simp [hs]
          exact checks_not_mem _ _ _ _ _ (by decide)
        · simp [hs]
      · cases hs : args.syslog <;> simp [hs, hc] <;>
          exact checks_not_mem _ _ _ _ _ (by decide)
    | true =>
      rw [mainWith_trace_assertion env args WEB_HOSTS h hc]
      unfold reportedEvents
      refine ⟨by simp, ?_, ?_⟩
      · cases hp : (audio_play env.cast).2 <;> cases hs : args.syslog
        · simp [hp, hs, server_up_events]
          refine ⟨?_, ?_⟩
          · exact checks_not_mem _ _ _ _ _ (by decide)
          · intro hmem
            exact play_not_mem env.cast _ (fun u => by simp) hmem
        · simp [hp, hs, server_up_events]
        · simp [hp, hs, server_up_events, server_down_events]
          refine ⟨?_, ?_⟩
          · exact checks_not_mem _ _ _ _ _ (by decide)
          · intro hmem
            exact play_not_mem env.cast _ (fun u => by simp) hmem
        · simp [hp, hs, server_up_events, server_down_events]
      · cases hp : (audio_play env.cast).2 <;>
          simp [hc, hp, server_up_events, server_down_events]
  · intro e h
    have hmain : mainWith env args WEB_HOSTS =
        ((checksWith env.resolve env.get WEB_HOSTS args.syslog).events, Except.error e) := by
      unfold mainWith
      simp [h]
    refine ⟨hmain, ?_, ?_⟩
    · rw [hmain]
      exact checks_not_mem _ _ _ _ _ (by decide)
    · rw [hmain]
      exact checks_not_mem _ _ _ _ _ (by decide)

/-- Witness for main_failure_reporting: with every check passing and both
flags off, main just relays the check output and performs no alert action. -/
theorem main_failure_reporting_witness :
    main demoEnvOk ⟨false, false⟩ =
      ((checks demoEnvOk.resolve demoEnvOk.get false).events, Except.ok ()) ∧
    Event.console "Network Error!" ∉ (main demoEnvOk ⟨false, false⟩).1 ∧
    Event.syslog "Network Error!" ∉ (main demoEnvOk ⟨false, false⟩).1 ∧
    Event.serverStart ∉ (main demoEnvOk ⟨false, false⟩).1 ∧
    (∀ u, Event.playCommand u ∉ (main demoEnvOk ⟨false, false⟩).1) :=
  (main_failure_reporting demoEnvOk ⟨false, false⟩).1 (by decide)

/-- C9: on the empty URL list both checks return True vacuously, printing
only their aggregate all-passed lines, the batch passes, and main emits no
failure message and no alert event of any kind. -/
theorem empty_list_vacuous_pass (resolve : String → Except PyExc Unit)
    (get : String → GetResult) (syslog : Bool) (env : MainEnv) (args : Args) :
    (dns_check resolve syslog []).result = Except.ok true ∧
    consoleLines (dns_check resolve syslog []).events =
      ["All dns checks passed successfully!"] ∧
    (web_check get syslog []).result = Except.ok true ∧
    consoleLines (web_check get syslog []).events =
      ["All web checks passed successfully!"] ∧
    (checksWith resolve get [] syslog).result = BatchResult.passed ∧
    (mainWith env args []).1 = (checksWith env.resolve env.get [] args.syslog).events ∧
    (mainWith env args []).2 = Except.ok () ∧
    Event.console "Network Error!" ∉ (mainWith env args []).1 ∧
    (∀ ev ∈ (mainWith env args []).1, Event.isLine ev = true) := by
  rcases args with ⟨cc, sl⟩
  have hev : ∀ b : Bool, ∀ r g, (checksWith r g [] b).events =
      [Event.console "All dns checks passed successfully!"] ++
        (if b then [Event.syslog "All dns checks passed successfully!"] else []) ++
        ([Event.console "All web checks passed successfully!"] ++
          (if b then [Event.syslog "All web checks passed successfully!"] else [])) := by
    intro b r g
    cases b <;> rfl
  have htrace : (mainWith env ⟨cc, sl⟩ []).1 =
      (checksWith env.resolve env.get [] sl).events := rfl
  refine ⟨rfl, ?_, rfl, ?_, rfl, htrace, rfl, ?_, ?_⟩
  · cases syslog <;> rfl
  · cases syslog <;> rfl
  · rw [htrace, hev sl env.resolve env.get]
    cases sl <;> decide
  · rw [htrace, hev sl env.resolve env.get]
    cases sl <;> decide

/-- Witness for empty_list_vacuous_pass at a concrete environment. -/
theorem empty_list_vacuous_pass_witness :
    (checksWith demoResolveOk demoGet200 [] false).result = BatchResult.passed ∧
    (mainWith demoEnvOk ⟨false, false⟩ []).2 = Except.ok () :=
  ⟨(empty_list_vacuous_pass demoResolveOk demoGet200 false demoEnvOk
      ⟨false, false⟩).2.2.2.2.1,
   (empty_list_vacuous_pass demoResolveOk demoGet200 false demoEnvOk
      ⟨false, false⟩).2.2.2.2.2.2.1⟩

end ConfCheck
